import Mathlib

/-!
Shallow embedding of the BSC token-transfer tracker's webhook ingestion
pipeline (NestJS/TypeScript source: `WebhookController.handleMoralisWebhook`,
`BscTrackerService.handleWebhookEvent` / `processERC20Transfer` /
`processTransferLog` / `handleTokenTransfer` / `openShortPosition`,
`PriceService.getTokenPriceInUsd`, `GateioService.findTradingPair`).

JavaScript dynamic values that the pipeline inspects are modelled by
`JsValue` (string or integer number) together with JS truthiness; absent
object fields are `Option.none`.  External collaborators (CoinGecko price
lookup, Gate.io pair list and order placement, Telegram) are modelled as
oracles in an `Env`; their observable calls are recorded as `Effect`s.
Floating-point arithmetic on USD amounts is modelled exactly by `JsFloat`,
an unnormalized integer fraction (the spec itself declares float rounding
immaterial to this domain).  String-library calls of the source are modelled
by structurally recursive character-list functions so that every definition
evaluates inside the kernel.
-/

/-- A JavaScript primitive value as it occurs in webhook payload fields:
either a string or an (integer) number. -/
inductive JsValue where
  | vstr (s : String)
  | vnum (n : Int)
deriving Repr, DecidableEq

/-- JS truthiness for `JsValue`: `""` and `0` are falsy. -/
def JsValue.truthy : JsValue → Bool
  | .vstr s => s ≠ ""
  | .vnum n => n ≠ 0

/-- JS truthiness of a possibly-absent string field
(`undefined` and `""` are falsy). -/
def strTruthy : Option String → Bool
  | some s => s ≠ ""
  | none => false

/-- JS `a || b` on possibly-absent string fields: the value of the chain. -/
def jsStrOr (a b : Option String) : Option String :=
  if strTruthy a then a else b

/-- JS `a || d` where `d` is a string literal default
(as in `transfer.to || transfer.toAddress || ""`). -/
def jsStrGetD (a : Option String) (d : String) : String :=
  match a with
  | some s => if s ≠ "" then s else d
  | none => d

/-- JS `a || b` where `a` is a possibly-absent `JsValue` field and `b` a value. -/
def jsOr (a : Option JsValue) (b : JsValue) : JsValue :=
  match a with
  | some v => if v.truthy then v else b
  | none => b

/-- JS `a || b` keeping absence (used for `body?.block?.number || body?.blockNumber`,
whose result may itself be absent or falsy). -/
def jsOrOpt (a b : Option JsValue) : Option JsValue :=
  match a with
  | some v => if v.truthy then some v else b
  | none => b

/-- Is the character ASCII whitespace (the JS `trim` class, ASCII part)? -/
def isWsChar (c : Char) : Bool :=
  c == ' ' || c == '\t' || c == '\n' || c == '\r' || c.toNat == 11 || c.toNat == 12

/-- Trim whitespace from both ends of a character list. -/
def trimWsChars (cs : List Char) : List Char :=
  ((cs.dropWhile isWsChar).reverse.dropWhile isWsChar).reverse

/-- Split a character list on a separator character (like `String.splitOn`
restricted to a one-character separator). -/
def splitOnChar (c : Char) (cs : List Char) : List (List Char) :=
  match cs with
  | [] => [[]]
  | x :: xs =>
    match splitOnChar c xs with
    | [] => [[]]
    | h :: t => if x == c then [] :: h :: t else (x :: h) :: t

/-- `String.toLowerCase` (character-wise). -/
def strToLower (s : String) : String :=
  String.mk (s.data.map Char.toLower)

/-- `String.toUpperCase` (character-wise). -/
def strToUpper (s : String) : String :=
  String.mk (s.data.map Char.toUpper)

/-- JS `s.slice(-n)`: the last `n` characters (the whole string when shorter). -/
def strTakeRight (s : String) (n : Nat) : String :=
  String.mk (s.data.drop (s.data.length - n))

/-- Numeric value of a list of decimal digit characters. -/
def digitsVal (l : List Char) : Nat :=
  l.foldl (fun a c => a * 10 + (c.toNat - 48)) 0

/-- Is the character a hexadecimal digit? -/
def isHexDigitChar (c : Char) : Bool :=
  c.isDigit || (97 ≤ c.toNat && c.toNat ≤ 102) || (65 ≤ c.toNat && c.toNat ≤ 70)

/-- Numeric value of one hexadecimal digit character. -/
def hexDigitVal (c : Char) : Nat :=
  if c.isDigit then c.toNat - 48
  else if 97 ≤ c.toNat then c.toNat - 87
  else c.toNat - 55

/-- Numeric value of a list of hexadecimal digit characters. -/
def hexVal (l : List Char) : Nat :=
  l.foldl (fun a c => a * 16 + hexDigitVal c) 0

/-- Is the character a binary digit? -/
def isBinDigitChar (c : Char) : Bool := c = '0' || c = '1'

/-- Is the character an octal digit? -/
def isOctDigitChar (c : Char) : Bool := 48 ≤ c.toNat && c.toNat ≤ 55

/-- Numeric value of a list of binary digit characters. -/
def binVal (l : List Char) : Nat :=
  l.foldl (fun a c => a * 2 + (c.toNat - 48)) 0

/-- Numeric value of a list of octal digit characters. -/
def octVal (l : List Char) : Nat :=
  l.foldl (fun a c => a * 8 + (c.toNat - 48)) 0

/-- JS `BigInt(string)`: trims whitespace, `""` is `0`, accepts `0x`/`0b`/`0o`
prefixed literals (no sign) and optionally signed decimal literals; any other
string throws (`none`). -/
def jsBigInt (s : String) : Option Int :=
  let t := trimWsChars s.data
  if t = [] then some 0
  else
    match t with
    | '0' :: 'x' :: rest =>
        if rest ≠ [] ∧ rest.all isHexDigitChar then some (hexVal rest) else none
    | '0' :: 'X' :: rest =>
        if rest ≠ [] ∧ rest.all isHexDigitChar then some (hexVal rest) else none
    | '0' :: 'b' :: rest =>
        if rest ≠ [] ∧ rest.all isBinDigitChar then some (binVal rest) else none
    | '0' :: 'B' :: rest =>
        if rest ≠ [] ∧ rest.all isBinDigitChar then some (binVal rest) else none
    | '0' :: 'o' :: rest =>
        if rest ≠ [] ∧ rest.all isOctDigitChar then some (octVal rest) else none
    | '0' :: 'O' :: rest =>
        if rest ≠ [] ∧ rest.all isOctDigitChar then some (octVal rest) else none
    | '-' :: rest =>
        if rest ≠ [] ∧ rest.all Char.isDigit then some (-(digitsVal rest : Int)) else none
    | '+' :: rest =>
        if rest ≠ [] ∧ rest.all Char.isDigit then some ((digitsVal rest : Int)) else none
    | cs => if cs.all Char.isDigit then some ((digitsVal cs : Int)) else none

/-- Digit-prefix part of JS `parseInt` after sign handling: auto-detects a
`0x` prefix, takes the longest digit prefix, `NaN` (`none`) when empty. -/
def jsParseIntDigits (cs : List Char) : Option Nat :=
  match cs with
  | '0' :: 'x' :: rest =>
      let ds := rest.takeWhile isHexDigitChar
      if ds = [] then none else some (hexVal ds)
  | '0' :: 'X' :: rest =>
      let ds := rest.takeWhile isHexDigitChar
      if ds = [] then none else some (hexVal ds)
  | _ =>
      let ds := cs.takeWhile Char.isDigit
      if ds = [] then none else some (digitsVal ds)

/-- JS `parseInt(string)` (radix auto-detection): leading whitespace skipped,
optional sign, longest digit prefix; `none` models `NaN`. -/
def jsParseInt (s : String) : Option Int :=
  match s.data.dropWhile isWsChar with
  | '-' :: rest => (jsParseIntDigits rest).map (fun n => -(n : Int))
  | '+' :: rest => (jsParseIntDigits rest).map (fun n => (n : Int))
  | cs => (jsParseIntDigits cs).map (fun n => (n : Int))

/-- Left-pad a digit string with `'0'` until its length exceeds `decimals`
(ethers v6 `toString`: `while (str.length <= decimals) str = "0" + str`). -/
def padToLen (s : List Char) (n : Nat) : List Char :=
  List.replicate (n - s.length) '0' ++ s

/-- Drop leading `'0'` characters but keep at least one character. -/
def trimLeadingZeros (s : List Char) : List Char :=
  match s.dropWhile (· == '0') with
  | [] => ['0']
  | t => t

/-- Drop trailing `'0'` characters but keep at least one character. -/
def trimTrailingZeros (s : List Char) : List Char :=
  (trimLeadingZeros s.reverse).reverse

/-- `ethers.formatUnits(value, decimals)` (ethers v6 `FixedNumber.toString`):
no decimal point when `decimals = 0`; otherwise pad, insert the point
`decimals` places from the right, trim the whole part to one leading digit and
the fraction to one trailing digit. -/
def formatUnits (val : Int) (decimals : Nat) : String :=
  let negative := if val < 0 then "-" else ""
  let s := Nat.repr val.natAbs
  if decimals = 0 then negative ++ s
  else
    let cs := padToLen s.data (decimals + 1)
    let index := cs.length - decimals
    let whole := trimLeadingZeros (cs.take index)
    let frac := trimTrailingZeros (cs.drop index)
    negative ++ String.mk whole ++ "." ++ String.mk frac

/-- An exact, unnormalized integer fraction standing in for a JS number
(binary64 rounding abstracted away; every constructor used by the pipeline
keeps the denominator positive). -/
structure JsFloat where
  num : Int
  den : Int
deriving Repr, DecidableEq

/-- The integer `n` as a `JsFloat`. -/
def JsFloat.ofInt (n : Int) : JsFloat := { num := n, den := 1 }

instance (n : Nat) : OfNat JsFloat n := ⟨JsFloat.ofInt n⟩

/-- Exact product of two `JsFloat`s (JS `*`). -/
def JsFloat.mul (a b : JsFloat) : JsFloat :=
  { num := a.num * b.num, den := a.den * b.den }

/-- Exact quotient of two `JsFloat`s (JS `/`; only used with positive
divisors in the pipeline). -/
def JsFloat.div (a b : JsFloat) : JsFloat :=
  { num := a.num * b.den, den := a.den * b.num }

/-- Order on `JsFloat` by cross-multiplication (dens positive throughout). -/
instance : LE JsFloat := ⟨fun a b => a.num * b.den ≤ b.num * a.den⟩

instance (a b : JsFloat) : Decidable (a ≤ b) :=
  inferInstanceAs (Decidable (a.num * b.den ≤ b.num * a.den))

/-- `10 ^ n` as an `Int`. -/
def tenPow (n : Nat) : Int := ((10 ^ n : Nat) : Int)

/-- Exact value of an unsigned decimal string `w` or `w.f`
(the grammar `formatUnits` emits). -/
def parseDecimalNonneg (s : String) : JsFloat :=
  match splitOnChar '.' s.data with
  | [w] => JsFloat.ofInt (digitsVal w)
  | [w, f] =>
      { num := (digitsVal w : Int) * tenPow f.length + (digitsVal f : Int),
        den := tenPow f.length }
  | _ => 0

/-- JS `parseFloat` on the decimal strings produced by `formatUnits`,
modelled exactly (binary64 rounding abstracted away). -/
def parseDecimalQ (s : String) : JsFloat :=
  match s.data with
  | '-' :: rest => let p := parseDecimalNonneg (String.mk rest); { num := -(p.num), den := p.den }
  | _ => parseDecimalNonneg s

/-- `wallets` table row (`Wallet` entity). -/
structure Wallet where
  id : Nat
  address : String
  chatId : Int
  thresholdUsd : JsFloat
  isActive : Bool
  streamId : Option String
deriving Repr, DecidableEq

/-- `transactions` table row (`Transaction` entity); `blockNumber = none`
models a `NaN` block number. -/
structure Transaction where
  id : Nat
  txHash : String
  walletId : Nat
  tokenAddress : String
  tokenSymbol : String
  amount : String
  amountUsd : JsFloat
  blockNumber : Option Int
  shortOpened : Bool
deriving Repr, DecidableEq

/-- The persisted store: both repositories plus the id sequence. -/
structure DbState where
  wallets : List Wallet
  transactions : List Transaction
  nextTxId : Nat
deriving Repr, DecidableEq

/-- `walletRepository.findOne({ where: { address } })`. -/
def findWalletByAddress (st : DbState) (addr : String) : Option Wallet :=
  st.wallets.find? (fun w => w.address == addr)

/-- `transactionRepository.findOne({ where: { txHash } })`. -/
def findTxByHash (st : DbState) (h : String) : Option Transaction :=
  st.transactions.find? (fun r => r.txHash == h)

/-- `transactionRepository.save` of a freshly created row: append and advance
the id sequence. -/
def insertTx (st : DbState) (r : Transaction) : DbState :=
  { st with transactions := st.transactions ++ [r], nextTxId := st.nextTxId + 1 }

/-- `transaction.shortOpened = true; transactionRepository.save(transaction)`:
update the row with the given id. -/
def setShortOpened (st : DbState) (id : Nat) : DbState :=
  { st with
    transactions :=
      st.transactions.map (fun r => if r.id = id then { r with shortOpened := true } else r) }

/-- The two Telegram messages the pipeline sends. -/
inductive MsgKind where
  | transferAlert
  | shortAlert
deriving Repr, DecidableEq

/-- Observable calls to external collaborators. -/
inductive Effect where
  | notify (chatId : Int) (kind : MsgKind)
  | marketLookup (symbol : String)
  | sell (pair : String) (amountUsd : JsFloat)
deriving Repr, DecidableEq

/-- One Gate.io currency pair as returned by `/spot/currency_pairs`. -/
structure GateioPair where
  id : String
  base : String
  quote : String
deriving Repr, DecidableEq

/-- Oracles for the external collaborators.  `priceLookup`: the CoinGecko
call — `Except.error` is an HTTP/exception failure, `Except.ok none` a
response without a usd price.  `pairsResult`: the Gate.io pair-list fetch.
`sellResult`: the Gate.io order placement (`Except.error` = the request threw). -/
structure Env where
  priceLookup : String → Except Unit (Option JsFloat)
  pairsResult : Except Unit (List GateioPair)
  sellResult : String → JsFloat → Except Unit Unit

/-- `PriceService.getTokenPriceInUsd`: returns `0` on lookup failure, on a
missing price, and on a falsy (zero) price, never raising to the caller. -/
def getTokenPriceInUsd (env : Env) (tokenAddress : String) : JsFloat :=
  match env.priceLookup (strToLower tokenAddress) with
  | .error _ => 0
  | .ok none => 0
  | .ok (some p) => if p.num == 0 then 0 else p

/-- `GateioService.getTradingPairs`: empty list when the fetch fails. -/
def getTradingPairs (env : Env) : List GateioPair :=
  match env.pairsResult with
  | .ok l => l
  | .error _ => []

/-- `GateioService.findTradingPair`: first pair whose base is the symbol
(case-insensitive) quoted in USDT or USD. -/
def findTradingPair (env : Env) (tokenSymbol : String) : Option String :=
  ((getTradingPairs env).find? (fun p =>
      strToUpper p.base == strToUpper tokenSymbol &&
        (strToUpper p.quote == "USDT" || strToUpper p.quote == "USD"))).map (fun p => p.id)

/-- A structured transfer entry (`erc20Transfers[i]`), with the field aliases
the pipeline reads.  `block = some inner` models a `{ number: ... }` object
whose `number` field is `inner` (an object is always truthy in JS). -/
structure TransferPayload where
  «to» : Option String
  toAddress : Option String
  transactionHash : Option String
  hash : Option String
  contract : Option String
  tokenAddress : Option String
  address : Option String
  tokenSymbol : Option String
  symbol : Option String
  tokenDecimals : Option JsValue
  decimals : Option JsValue
  value : Option JsValue
  amount : Option JsValue
  block : Option (Option JsValue)
  blockNumber : Option JsValue
deriving Repr, DecidableEq

/-- An indexed log entry (`logs[i]`), with the fields the pipeline reads. -/
structure LogPayload where
  topic0 : Option String
  topic2 : Option String
  transactionHash : Option String
  hash : Option String
  address : Option String
  data : Option String
  blockNumber : Option JsValue
deriving Repr, DecidableEq

/-- The webhook delivery body.  `blockNum` models `body.block?.number`. -/
structure WebhookBody where
  confirmed : Option Bool
  tag : Option String
  streamId : Option String
  erc20Transfers : Option (List TransferPayload)
  logs : Option (List LogPayload)
  blockNum : Option JsValue
  blockNumber : Option JsValue
deriving Repr, DecidableEq

/-- `tx.contract || tx.tokenAddress || tx.address || ""`, lower-cased. -/
def resolveTokenAddress (tx : TransferPayload) : String :=
  strToLower (jsStrGetD (jsStrOr tx.contract (jsStrOr tx.tokenAddress tx.address)) "")

/-- `tx.tokenSymbol || tx.symbol || "UNKNOWN"`. -/
def resolveSymbol (tx : TransferPayload) : String :=
  jsStrGetD (jsStrOr tx.tokenSymbol tx.symbol) "UNKNOWN"

/-- `tx.tokenDecimals || tx.decimals || "18"`. -/
def resolveDecimalsRaw (tx : TransferPayload) : JsValue :=
  jsOr tx.tokenDecimals (jsOr tx.decimals (JsValue.vstr "18"))

/-- `typeof decimalsRaw === "string" ? parseInt(decimalsRaw) : decimalsRaw`;
`none` models `NaN`. -/
def resolveDecimals (tx : TransferPayload) : Option Int :=
  match resolveDecimalsRaw tx with
  | .vstr s => jsParseInt s
  | .vnum n => some n

/-- `tx.value || tx.amount || "0"`. -/
def resolveValueRaw (tx : TransferPayload) : JsValue :=
  jsOr tx.value (jsOr tx.amount (JsValue.vstr "0"))

/-- The `BigInt` conversion of the raw value; `none` models a thrown
`SyntaxError` (caught by the surrounding try/catch). -/
def resolveValue (tx : TransferPayload) : Option Int :=
  match resolveValueRaw tx with
  | .vstr s => jsBigInt s
  | .vnum n => some n

/-- Fallback chain of `tx.block?.number || tx.blockNumber || tx.block || "0"`
past the first alternative.  In the dead corner where `tx.block` is an object
with a falsy-or-missing `number` and `tx.blockNumber` is falsy, JS yields the
block object itself (not representable as a `JsValue`); no claim depends on
that corner, which is mapped to the number `0`. -/
def blockFallback (tx : TransferPayload) : JsValue :=
  match tx.blockNumber with
  | some n => if n.truthy then n else (match tx.block with
      | some _ => JsValue.vnum 0
      | none => JsValue.vstr "0")
  | none => match tx.block with
      | some _ => JsValue.vnum 0
      | none => JsValue.vstr "0"

/-- `tx.block?.number || tx.blockNumber || tx.block || "0"`. -/
def blockNumberRawOf (tx : TransferPayload) : JsValue :=
  match tx.block with
  | some (some n) => if n.truthy then n else blockFallback tx
  | some none => blockFallback tx
  | none => blockFallback tx

/-- `typeof blockNumberRaw === "string" ? parseInt(blockNumberRaw) : blockNumberRaw`;
`none` models `NaN`. -/
def resolveBlockNumber (tx : TransferPayload) : Option Int :=
  match blockNumberRawOf tx with
  | .vstr s => jsParseInt s
  | .vnum n => some n

/-- `transactionRepository.create({...})`: the creation literal of
`handleTokenTransfer` — note `shortOpened` is hard-wired to `false`. -/
def mkTransaction (id : Nat) (txHash : String) (walletId : Nat)
    (tokenAddress tokenSymbol amount : String) (amountUsd : JsFloat)
    (blockNumber : Option Int) : Transaction :=
  { id := id, txHash := txHash, walletId := walletId, tokenAddress := tokenAddress,
    tokenSymbol := tokenSymbol, amount := amount, amountUsd := amountUsd,
    blockNumber := blockNumber, shortOpened := false }

/-- The `ethers.formatUnits` argument guard (ethers v6): decimals must be an
integer in `[0, 80]` and the value must fit a signed 512-bit fixed format;
outside it the call throws (caught by the surrounding try/catch). -/
def formatGuard (v : Int) (d : Int) : Bool :=
  decide (0 ≤ d) && decide (d ≤ 80) && decide (-(2 ^ 511) ≤ v) && decide (v < 2 ^ 511)

set_option linter.unusedVariables false in
/-- `BscTrackerService.openShortPosition`: skip if the flag is already set,
look up a trading pair, place a market sell for 1% of the USD value, and on
success flip `shortOpened` and save; every failure is caught and logged. -/
def openShortPosition (transaction : Transaction) (wallet : Wallet) (st : DbState)
    (env : Env) : DbState × List Effect :=
  if transaction.shortOpened then (st, [])
  else
    match findTradingPair env transaction.tokenSymbol with
    | none => (st, [Effect.marketLookup transaction.tokenSymbol])
    | some pair =>
        let shortAmount := JsFloat.div transaction.amountUsd 100
        match env.sellResult pair shortAmount with
        | .error _ =>
            (st, [Effect.marketLookup transaction.tokenSymbol, Effect.sell pair shortAmount])
        | .ok _ =>
            (setShortOpened st transaction.id,
              [Effect.marketLookup transaction.tokenSymbol, Effect.sell pair shortAmount])

/-- `BscTrackerService.handleTokenTransfer`: normalize the fields, convert the
raw value, format it, price it, persist the record (with `shortOpened = false`),
notify, and when the USD amount reaches the wallet threshold run the trade flow
and send the second notification.  A thrown `BigInt`/`formatUnits` conversion
is caught by the function's try/catch, leaving the state untouched. -/
def handleTokenTransfer (tx : TransferPayload) (wallet : Wallet) (st : DbState)
    (env : Env) : DbState × List Effect :=
  match jsStrOr tx.transactionHash tx.hash with
  | none => (st, [])
  | some txHash =>
    if txHash = "" then (st, [])
    else
      match resolveValue tx with
      | none => (st, [])
      | some v =>
        match resolveDecimals tx with
        | none => (st, [])
        | some d =>
          if formatGuard v d then
            let amountFormatted := formatUnits v d.toNat
            let tokenPrice := getTokenPriceInUsd env (resolveTokenAddress tx)
            let amountUsd := JsFloat.mul (parseDecimalQ amountFormatted) tokenPrice
            let record := mkTransaction st.nextTxId txHash wallet.id
              (resolveTokenAddress tx) (resolveSymbol tx) amountFormatted amountUsd
              (resolveBlockNumber tx)
            let st1 := insertTx st record
            if amountUsd ≥ wallet.thresholdUsd then
              let res := openShortPosition record wallet st1 env
              (res.1,
                Effect.notify wallet.chatId MsgKind.transferAlert ::
                  res.2 ++ [Effect.notify wallet.chatId MsgKind.shortAlert])
            else (st1, [Effect.notify wallet.chatId MsgKind.transferAlert])
          else (st, [])

/-- `BscTrackerService.processERC20Transfer`: resolve and lower-case the
destination, look up an active wallet, extract the hash, dedup against the
transactions table, then hand off to `handleTokenTransfer`. -/
def processERC20Transfer (transfer : TransferPayload) (st : DbState) (env : Env) :
    DbState × List Effect :=
  let toAddress := strToLower (jsStrGetD (jsStrOr transfer.«to» transfer.toAddress) "")
  if toAddress = "" then (st, [])
  else
    match findWalletByAddress st toAddress with
    | none => (st, [])
    | some wallet =>
      if ¬ wallet.isActive then (st, [])
      else
        match jsStrOr transfer.transactionHash transfer.hash with
        | none => (st, [])
        | some txHash =>
          if txHash = "" then (st, [])
          else if (findTxByHash st txHash).isSome then (st, [])
          else handleTokenTransfer transfer wallet st env

/-- The transfer object `processTransferLog` synthesizes for
`handleTokenTransfer`. -/
def logTransfer (lg : LogPayload) (txHash toAddress value : String) : TransferPayload :=
  { «to» := none, toAddress := some toAddress, transactionHash := some txHash, hash := none,
    contract := none, tokenAddress := lg.address.map strToLower, address := none,
    tokenSymbol := none, symbol := none, tokenDecimals := none, decimals := none,
    value := some (JsValue.vstr value), amount := none,
    block := none, blockNumber := lg.blockNumber }

/-- `BscTrackerService.processTransferLog`: the destination is the low-order
40 hex characters of `topic2`, lower-cased and prefixed with `"0x"`; the
quantity is the low-order 64 hex characters of `data`; then wallet lookup,
dedup, and hand-off to `handleTokenTransfer`. -/
def processTransferLog (lg : LogPayload) (st : DbState) (env : Env) :
    DbState × List Effect :=
  match lg.topic2 with
  | none => (st, [])
  | some t2 =>
    if t2 = "" then (st, [])
    else
      let toAddress := "0x" ++ strToLower (strTakeRight t2 40)
      match findWalletByAddress st (strToLower toAddress) with
      | none => (st, [])
      | some wallet =>
        if ¬ wallet.isActive then (st, [])
        else
          match jsStrOr lg.transactionHash lg.hash with
          | none => (st, [])
          | some txHash =>
            if txHash = "" then (st, [])
            else if (findTxByHash st txHash).isSome then (st, [])
            else
              let value := match lg.data with
                | some dt => if dt ≠ "" then "0x" ++ strTakeRight dt 64 else "0x0"
                | none => "0x0"
              handleTokenTransfer (logTransfer lg txHash toAddress value) wallet st env

/-- The canonical `Transfer(address,address,uint256)` event signature hash. -/
def TRANSFER_EVENT_SIGNATURE : String :=
  "0xddf252ad1be2c89b69c2b068fc378daa952ba7f163c4a11628f55a4df523b3ef"

/-- `body?.block?.number || body?.blockNumber`. -/
def batchBlockNumber (body : WebhookBody) : Option JsValue :=
  jsOrOpt body.blockNum body.blockNumber

/-- `if (!transfer.block && blockNumber) transfer.block = { number: blockNumber }`. -/
def augmentBlock (bn : Option JsValue) (t : TransferPayload) : TransferPayload :=
  match t.block, bn with
  | none, some v => if v.truthy then { t with block := some (some v) } else t
  | _, _ => t

/-- The `for (const transfer of erc20Transfers)` loop of `handleWebhookEvent`. -/
def processTransfers (ts : List TransferPayload) (st : DbState) (env : Env)
    (bn : Option JsValue) : DbState × List Effect :=
  match ts with
  | [] => (st, [])
  | t :: rest =>
    let r1 := processERC20Transfer (augmentBlock bn t) st env
    let r2 := processTransfers rest r1.1 env bn
    (r2.1, r1.2 ++ r2.2)

/-- The `for (const log of logs)` loop of `handleWebhookEvent`: only logs
whose `topic0` is the canonical Transfer signature are processed. -/
def processLogs (ls : List LogPayload) (st : DbState) (env : Env) :
    DbState × List Effect :=
  match ls with
  | [] => (st, [])
  | lg :: rest =>
    let r1 := if lg.topic0 = some TRANSFER_EVENT_SIGNATURE
      then processTransferLog lg st env else (st, [])
    let r2 := processLogs rest r1.1 env
    (r2.1, r1.2 ++ r2.2)

/-- `body?.tag && body?.streamId && (no transfers) && (no logs)`. -/
def isTestWebhook (body : WebhookBody) : Bool :=
  strTruthy body.tag && strTruthy body.streamId &&
    (match body.erc20Transfers with | none => true | some l => l.isEmpty) &&
    (match body.logs with | none => true | some l => l.isEmpty)

/-- JS truthiness of `body?.confirmed`. -/
def confirmedTruthy (body : WebhookBody) : Bool :=
  match body.confirmed with
  | some true => true
  | _ => false

/-- `BscTrackerService.handleWebhookEvent`: ignore verification pings, ignore
unconfirmed deliveries, then process the structured transfers followed by the
Transfer-signature logs. -/
def handleWebhookEvent (body : WebhookBody) (st : DbState) (env : Env) :
    DbState × List Effect :=
  if isTestWebhook body then (st, [])
  else if ¬ confirmedTruthy body then (st, [])
  else
    let bn := batchBlockNumber body
    let r1 := processTransfers (body.erc20Transfers.getD []) st env bn
    let r2 := processLogs (body.logs.getD []) r1.1 env
    (r2.1, r1.2 ++ r2.2)

/-- The HTTP response of the webhook endpoint. -/
structure HttpResponse where
  statusCode : Nat
  body : String
deriving Repr, DecidableEq

/-- The acknowledgement body `res.status(200).json({ status: "ok" })` sends. -/
def okJson : String := "\x7b\"status\":\"ok\"\x7d"

/-- `WebhookController.handleMoralisWebhook`: the 200/ok response is produced
unconditionally; processing runs in a `setImmediate` callback whose errors are
caught and logged, so the response component never depends on it. -/
def handleMoralisWebhook (body : WebhookBody) (st : DbState) (env : Env) :
    HttpResponse × (DbState × List Effect) :=
  ({ statusCode := 200, body := okJson }, handleWebhookEvent body st env)

/-- Is the effect a Telegram notification? -/
def isNotifyEffect : Effect → Bool
  | .notify _ _ => true
  | _ => false

/-- The flag-monotonicity relation between two store states: every record
whose `shortOpened` flag is set keeps an image with the same id and flag set. -/
def flagPreserved (a b : DbState) : Prop :=
  ∀ r ∈ a.transactions, r.shortOpened = true →
    ∃ r' ∈ b.transactions, r'.id = r.id ∧ r'.shortOpened = true

/-- A registered, active wallet with a $10 threshold. -/
def sampleWallet : Wallet :=
  { id := 1, address := "0xaa", chatId := 7, thresholdUsd := 10, isActive := true,
    streamId := none }

/-- A store holding only `sampleWallet`. -/
def sampleState : DbState :=
  { wallets := [sampleWallet], transactions := [], nextTxId := 1 }

/-- An environment where every token is worth $2, the Gate.io pair list is
empty, and orders succeed. -/
def sampleEnv : Env :=
  { priceLookup := fun _ => .ok (some 2), pairsResult := .ok [],
    sellResult := fun _ _ => .ok () }

/-- Same environment but the price lookup throws. -/
def samplePriceFailEnv : Env :=
  { priceLookup := fun _ => .error (), pairsResult := .ok [],
    sellResult := fun _ _ => .ok () }

/-- A structured transfer of 5 tokens (18 decimals) to `sampleWallet`. -/
def sampleTransfer : TransferPayload :=
  { «to» := some "0xAA", toAddress := none, transactionHash := some "0xh1", hash := none,
    contract := some "0xTOK", tokenAddress := none, address := none,
    tokenSymbol := some "FOO", symbol := none, tokenDecimals := none, decimals := none,
    value := some (.vstr "5000000000000000000"), amount := none, block := none,
    blockNumber := none }

/-- An already-persisted record for transaction hash `0xh1`. -/
def sampleTx : Transaction :=
  { id := 1, txHash := "0xh1", walletId := 1, tokenAddress := "0xtok",
    tokenSymbol := "FOO", amount := "5.0", amountUsd := 10, blockNumber := some 0,
    shortOpened := false }

/-- A store in which hash `0xh1` is already recorded. -/
def dupState : DbState :=
  { wallets := [sampleWallet], transactions := [sampleTx], nextTxId := 2 }

/-- A Transfer-signature log entry carrying hash `0xh1` addressed to
`sampleWallet`. -/
def sampleLog : LogPayload :=
  { topic0 := some TRANSFER_EVENT_SIGNATURE,
    topic2 := some "0x00000000000000000000000000000000000000000000000000000000000000AA",
    transactionHash := some "0xh1", hash := none, address := some "0xTOK",
    data := some "0x0000000000000000000000000000000000000000000000004563918244f40000",
    blockNumber := none }

/-- A persisted record with the trade flag already set. -/
def flaggedTx : Transaction :=
  { id := 9, txHash := "0xold", walletId := 1, tokenAddress := "0xtok",
    tokenSymbol := "BAR", amount := "1.0", amountUsd := 2, blockNumber := some 0,
    shortOpened := true }

/-- A store holding `flaggedTx` next to `sampleWallet`. -/
def flaggedState : DbState :=
  { wallets := [sampleWallet], transactions := [flaggedTx], nextTxId := 10 }

/-- A confirmed delivery carrying `sampleTransfer`. -/
def sampleBody : WebhookBody :=
  { confirmed := some true, tag := some "wallet_1", streamId := some "s1",
    erc20Transfers := some [sampleTransfer], logs := none, blockNum := none,
    blockNumber := some (.vnum 123) }

/-- An unconfirmed delivery carrying `sampleTransfer`. -/
def unconfirmedBody : WebhookBody :=
  { confirmed := none, tag := some "wallet_1", streamId := some "s1",
    erc20Transfers := some [sampleTransfer], logs := none, blockNum := none,
    blockNumber := none }

/-- A verification ping: tag and stream id, no transfers, no logs. -/
def pingBody : WebhookBody :=
  { confirmed := none, tag := some "wallet_1", streamId := some "s1",
    erc20Transfers := none, logs := some [], blockNum := none, blockNumber := none }


/-- A log entry whose first topic is not the Transfer signature. -/
def offTopicLog : LogPayload :=
  { topic0 := some "0x0000000000000000000000000000000000000000000000000000000000000000",
    topic2 := some "0x00000000000000000000000000000000000000000000000000000000000000AA",
    transactionHash := some "0xh2", hash := none, address := some "0xTOK",
    data := some "0x01", blockNumber := none }

lemma flagPreserved_refl (st : DbState) : flagPreserved st st :=
  fun r hr hflag => ⟨r, hr, rfl, hflag⟩

lemma flagPreserved_trans {a b c : DbState} (h1 : flagPreserved a b)
    (h2 : flagPreserved b c) : flagPreserved a c := by
  intro r hr hflag
  obtain ⟨r1, hr1, hid1, hf1⟩ := h1 r hr hflag
  obtain ⟨r2, hr2, hid2, hf2⟩ := h2 r1 hr1 hf1
  exact ⟨r2, hr2, hid2.trans hid1, hf2⟩

lemma flagPreserved_insertTx (st : DbState) (t : Transaction) :
    flagPreserved st (insertTx st t) := by
  intro r hr hflag
  exact ⟨r, by simp [insertTx, hr], rfl, hflag⟩

lemma flagPreserved_setShortOpened (st : DbState) (id : Nat) :
    flagPreserved st (setShortOpened st id) := by
  intro r hr hflag
  refine ⟨if r.id = id then { r with shortOpened := true } else r, ?_, ?_, ?_⟩
  · simpa [setShortOpened] using List.mem_map_of_mem
      (fun r => if r.id = id then { r with shortOpened := true } else r) hr
  · split <;> rfl
  · split <;> simp [hflag]

lemma flagPreserved_openShortPosition (t : Transaction) (w : Wallet) (st : DbState)
    (env : Env) : flagPreserved st (openShortPosition t w st env).1 := by
  unfold openShortPosition
  dsimp only
  repeat' split
  all_goals
    first
      | exact flagPreserved_refl st
      | exact flagPreserved_setShortOpened st t.id

lemma flagPreserved_handleTokenTransfer (tx : TransferPayload) (w : Wallet)
    (st : DbState) (env : Env) :
    flagPreserved st (handleTokenTransfer tx w st env).1 := by
  unfold handleTokenTransfer
  dsimp only
  repeat' split
  all_goals
    first
      | exact flagPreserved_refl st
      | exact flagPreserved_insertTx st _
      | exact flagPreserved_trans (flagPreserved_insertTx st _)
          (flagPreserved_openShortPosition _ w _ env)

lemma flagPreserved_processERC20Transfer (t : TransferPayload) (st : DbState)
    (env : Env) : flagPreserved st (processERC20Transfer t st env).1 := by
  unfold processERC20Transfer
  dsimp only
  repeat' split
  all_goals
    first
      | exact flagPreserved_refl st
      | exact flagPreserved_handleTokenTransfer _ _ st env

lemma flagPreserved_processTransferLog (lg : LogPayload) (st : DbState)
    (env : Env) : flagPreserved st (processTransferLog lg st env).1 := by
  unfold processTransferLog
  dsimp only
  repeat' split
  all_goals
    first
      | exact flagPreserved_refl st
      | exact flagPreserved_handleTokenTransfer _ _ st env

lemma flagPreserved_processTransfers (ts : List TransferPayload) (st : DbState)
    (env : Env) (bn : Option JsValue) :
    flagPreserved st (processTransfers ts st env bn).1 := by
  induction ts generalizing st with
  | nil => exact flagPreserved_refl st
  | cons t rest ih =>
      exact flagPreserved_trans (flagPreserved_processERC20Transfer _ st env) (ih _)

lemma flagPreserved_processLogs (ls : List LogPayload) (st : DbState) (env : Env) :
    flagPreserved st (processLogs ls st env).1 := by
  induction ls generalizing st with
  | nil => exact flagPreserved_refl st
  | cons lg rest ih =>
      refine flagPreserved_trans (b := (if lg.topic0 = some TRANSFER_EVENT_SIGNATURE
        then processTransferLog lg st env else (st, [])).1) ?_ (ih _)
      split
      · exact flagPreserved_processTransferLog lg st env
      · exact flagPreserved_refl st

lemma flagPreserved_handleWebhookEvent (body : WebhookBody) (st : DbState)
    (env : Env) : flagPreserved st (handleWebhookEvent body st env).1 := by
  unfold handleWebhookEvent
  dsimp only
  split
  · exact flagPreserved_refl st
  · split
    · exact flagPreserved_refl st
    · exact flagPreserved_trans (flagPreserved_processTransfers _ st env _)
        (flagPreserved_processLogs _ _ env)

/-- C2: for every webhook delivery, the endpoint returns HTTP 200 with body
`{"status":"ok"}`, and the response component never depends on the state or
the collaborator environment the dispatched processing runs against — any
processing outcome, failure included, leaves the response unchanged. -/
theorem c2_webhook_always_ok :
    (∀ (body : WebhookBody) (st : DbState) (env : Env),
      (handleMoralisWebhook body st env).1 = { statusCode := 200, body := okJson }) ∧
    (∀ (body : WebhookBody) (st st2 : DbState) (env env2 : Env),
      (handleMoralisWebhook body st env).1 = (handleMoralisWebhook body st2 env2).1) :=
  ⟨fun _ _ _ => rfl, fun _ _ _ _ _ => rfl⟩

/-- C4: a delivery whose batch-level `confirmed` flag is `false` or absent is
ignored: the persisted state is unchanged and no collaborator is called,
whatever transfers or logs the delivery carries. -/
theorem c4_unconfirmed_ignored (body : WebhookBody) (st : DbState) (env : Env)
    (hc : body.confirmed = some false ∨ body.confirmed = none) :
    handleWebhookEvent body st env = (st, []) := by
  have hct : confirmedTruthy body = false := by
    rcases hc with h | h <;> simp [confirmedTruthy, h]
  unfold handleWebhookEvent
  rw [hct]
  simp

/-- Witness for C4: an unconfirmed delivery that does carry a transfer still
leaves the store untouched. -/
theorem c4_witness :
    handleWebhookEvent unconfirmedBody sampleState sampleEnv = (sampleState, []) :=
  c4_unconfirmed_ignored unconfirmedBody sampleState sampleEnv (Or.inr rfl)

/-- C5: a verification ping (truthy tag and stream id, no transfer entries,
no log entries) gets the 200/ok acknowledgement while processing creates no
record, produces no effect, and raises no error. -/
theorem c5_ping_ignored (body : WebhookBody) (st : DbState) (env : Env)
    (h1 : strTruthy body.tag = true) (h2 : strTruthy body.streamId = true)
    (h3 : (match body.erc20Transfers with | none => true | some l => l.isEmpty) = true)
    (h4 : (match body.logs with | none => true | some l => l.isEmpty) = true) :
    handleMoralisWebhook body st env =
      ({ statusCode := 200, body := okJson }, (st, [])) := by
  have ht : isTestWebhook body = true := by
    simp only [isTestWebhook, h1, h2, h3, h4, Bool.and_self]
  unfold handleMoralisWebhook handleWebhookEvent
  rw [ht]
  simp

/-- Witness for C5: a concrete ping is acknowledged and ignored. -/
theorem c5_witness :
    handleMoralisWebhook pingBody sampleState sampleEnv =
      ({ statusCode := 200, body := okJson }, (sampleState, [])) :=
  c5_ping_ignored pingBody sampleState sampleEnv rfl rfl rfl rfl

/-- C1: processing a transfer event — structured or log-derived — whose
transaction hash is already among the persisted records is a no-op: the
store is unchanged and no notification, market lookup or sell order happens. -/
theorem c1_duplicate_hash_noop (t : TransferPayload) (lg : LogPayload)
    (st : DbState) (env : Env)
    (ht : ∀ h, jsStrOr t.transactionHash t.hash = some h → h ≠ "" →
      (findTxByHash st h).isSome = true)
    (hl : ∀ h, jsStrOr lg.transactionHash lg.hash = some h → h ≠ "" →
      (findTxByHash st h).isSome = true) :
    processERC20Transfer t st env = (st, []) ∧
      processTransferLog lg st env = (st, []) := by
  constructor
  · unfold processERC20Transfer
    dsimp only
    repeat' split
    all_goals try rfl
    all_goals exact absurd (ht _ (by assumption) (by assumption)) (by assumption)
  · unfold processTransferLog
    dsimp only
    repeat' split
    all_goals try rfl
    all_goals exact absurd (hl _ (by assumption) (by assumption)) (by assumption)

/-- Witness for C1: a transfer and a log that both carry the already-recorded
hash `0xh1` leave the store with that record untouched and cause no effect. -/
theorem c1_witness :
    processERC20Transfer sampleTransfer dupState sampleEnv = (dupState, []) ∧
      processTransferLog sampleLog dupState sampleEnv = (dupState, []) :=
  c1_duplicate_hash_noop sampleTransfer sampleLog dupState sampleEnv
    (by
      intro h hh hne
      rw [show jsStrOr sampleTransfer.transactionHash sampleTransfer.hash =
        some "0xh1" from rfl] at hh
      cases hh
      decide)
    (by
      intro h hh hne
      rw [show jsStrOr sampleLog.transactionHash sampleLog.hash =
        some "0xh1" from rfl] at hh
      cases hh
      decide)

/-- C6: an indexed log entry is handed to the transfer processor only when its
first topic equals the canonical Transfer-event signature hash; when it is
processed, the destination address is the low-order 40 hex characters of
`topic2`, lower-cased and re-prefixed with `0x`, and the quantity string is the
low-order 64 hex characters of the log's `data` field. -/
theorem c6_log_extraction :
    (∀ (lg : LogPayload) (st : DbState) (env : Env),
      lg.topic0 ≠ some TRANSFER_EVENT_SIGNATURE → processLogs [lg] st env = (st, [])) ∧
    (∀ (lg : LogPayload) (st : DbState) (env : Env) (t2 : String),
      lg.topic2 = some t2 → t2 ≠ "" →
      processTransferLog lg st env =
        (let toAddr := "0x" ++ strToLower (strTakeRight t2 40)
         let value := match lg.data with
           | some dt => if dt ≠ "" then "0x" ++ strTakeRight dt 64 else "0x0"
           | none => "0x0"
         match findWalletByAddress st (strToLower toAddr) with
         | none => (st, [])
         | some wallet =>
           if ¬ wallet.isActive then (st, [])
           else
             match jsStrOr lg.transactionHash lg.hash with
             | none => (st, [])
             | some txHash =>
               if txHash = "" then (st, [])
               else if (findTxByHash st txHash).isSome then (st, [])
               else handleTokenTransfer (logTransfer lg txHash toAddr value) wallet st env)) := by
  constructor
  · intro lg st env h
    simp only [processLogs]
    rw [if_neg h]
    simp [processLogs]
  · intro lg st env t2 h2 hne
    unfold processTransferLog
    rw [h2]
    dsimp only
    rw [if_neg hne]

/-- Witness for C6: a wrong-signature log is skipped, and a Transfer-signature
log addressed to an unregistered destination is processed but discarded at the
wallet lookup derived from its `topic2` extraction. -/
theorem c6_witness :
    processLogs [offTopicLog] sampleState sampleEnv = (sampleState, []) ∧
      processTransferLog sampleLog sampleState sampleEnv = (sampleState, []) := by
  refine ⟨c6_log_extraction.1 offTopicLog sampleState sampleEnv (by decide), ?_⟩
  rw [c6_log_extraction.2 sampleLog sampleState sampleEnv _ rfl (by decide)]
  decide

lemma openShortPosition_txs_length (t : Transaction) (w : Wallet) (st : DbState)
    (env : Env) :
    (openShortPosition t w st env).1.transactions.length = st.transactions.length := by
  unfold openShortPosition
  dsimp only
  repeat' split
  all_goals simp [setShortOpened]

lemma openShortPosition_mem (t : Transaction) (w : Wallet) (st : DbState) (env : Env)
    (r : Transaction) (hr : r ∈ st.transactions) :
    ∃ r' ∈ (openShortPosition t w st env).1.transactions,
      r'.txHash = r.txHash ∧ r'.amountUsd = r.amountUsd := by
  unfold openShortPosition
  dsimp only
  repeat' split
  all_goals try exact ⟨r, hr, rfl, rfl⟩
  refine ⟨if r.id = t.id then { r with shortOpened := true } else r, ?_, ?_, ?_⟩
  · simpa [setShortOpened] using List.mem_map_of_mem
      (fun r => if r.id = t.id then { r with shortOpened := true } else r) hr
  · split <;> rfl
  · split <;> rfl

lemma marketLookup_mem_openShortPosition (t : Transaction) (w : Wallet) (st : DbState)
    (env : Env) (h : t.shortOpened = false) :
    Effect.marketLookup t.tokenSymbol ∈ (openShortPosition t w st env).2 := by
  unfold openShortPosition
  rw [h]
  dsimp only
  repeat' split
  all_goals simp_all

/-- C7: when the price lookup fails, the valuation is `0` (the price gateway
never raises to the pipeline) and the transaction record is still created —
one new row, carrying the event's hash and a zero USD valuation. -/
theorem c7_price_failure_still_persists (tx : TransferPayload) (w : Wallet)
    (st : DbState) (env : Env) (h : String) (v d : Int)
    (hh : jsStrOr tx.transactionHash tx.hash = some h) (hne : h ≠ "")
    (hv : resolveValue tx = some v) (hd : resolveDecimals tx = some d)
    (hg : formatGuard v d = true)
    (hfail : env.priceLookup (strToLower (resolveTokenAddress tx)) = Except.error ()) :
    getTokenPriceInUsd env (resolveTokenAddress tx) = 0 ∧
    (handleTokenTransfer tx w st env).1.transactions.length =
      st.transactions.length + 1 ∧
    ∃ r ∈ (handleTokenTransfer tx w st env).1.transactions,
      r.txHash = h ∧ r.amountUsd.num = 0 := by
  have hp : getTokenPriceInUsd env (resolveTokenAddress tx) = 0 := by
    unfold getTokenPriceInUsd
    rw [hfail]
  refine ⟨hp, ?_⟩
  simp only [handleTokenTransfer, hh, hv, hd, hg, if_true, if_neg hne]
  rw [hp]
  set record := mkTransaction st.nextTxId h w.id (resolveTokenAddress tx)
    (resolveSymbol tx) (formatUnits v d.toNat)
    (JsFloat.mul (parseDecimalQ (formatUnits v d.toNat)) 0) (resolveBlockNumber tx) with hrec
  have hz : (0 : JsFloat).num = 0 := rfl
  have hnum : record.amountUsd.num = 0 := by
    simp [hrec, mkTransaction, JsFloat.mul, hz]
  have hmem : record ∈ (insertTx st record).transactions := by
    simp [insertTx]
  split
  · constructor
    · rw [openShortPosition_txs_length]
      simp [insertTx]
    · obtain ⟨r', hr', hhash, husd⟩ :=
        openShortPosition_mem record w (insertTx st record) env record hmem
      exact ⟨r', hr', by rw [hhash, hrec]; rfl, by rw [husd]; exact hnum⟩
  · constructor
    · simp [insertTx]
    · exact ⟨record, hmem, by rw [hrec]; rfl, hnum⟩

set_option maxRecDepth 8000 in
/-- Witness for C7: with a throwing price lookup, the sample transfer is still
persisted, with hash `0xh1` and zero valuation. -/
theorem c7_witness :
    getTokenPriceInUsd samplePriceFailEnv (resolveTokenAddress sampleTransfer) = 0 ∧
    (handleTokenTransfer sampleTransfer sampleWallet sampleState
        samplePriceFailEnv).1.transactions.length =
      sampleState.transactions.length + 1 ∧
    ∃ r ∈ (handleTokenTransfer sampleTransfer sampleWallet sampleState
        samplePriceFailEnv).1.transactions, r.txHash = "0xh1" ∧ r.amountUsd.num = 0 :=
  c7_price_failure_still_persists sampleTransfer sampleWallet sampleState
    samplePriceFailEnv "0xh1" 5000000000000000000 18 rfl (by decide) (by decide)
    (by decide) (by decide) rfl

/-- C8: for a transfer that reaches the persistence step, the trade flow is
invoked — a market lookup occurs — if and only if the computed USD valuation
is at least the owning wallet's threshold; a sell order can only occur when
the valuation meets the threshold. -/
theorem c8_threshold_gates_trade (tx : TransferPayload) (w : Wallet) (st : DbState)
    (env : Env) (h : String) (v d : Int)
    (hh : jsStrOr tx.transactionHash tx.hash = some h) (hne : h ≠ "")
    (hv : resolveValue tx = some v) (hd : resolveDecimals tx = some d)
    (hg : formatGuard v d = true) :
    (Effect.marketLookup (resolveSymbol tx) ∈ (handleTokenTransfer tx w st env).2 ↔
      w.thresholdUsd ≤ JsFloat.mul (parseDecimalQ (formatUnits v d.toNat))
        (getTokenPriceInUsd env (resolveTokenAddress tx))) ∧
    (∀ p a, Effect.sell p a ∈ (handleTokenTransfer tx w st env).2 →
      w.thresholdUsd ≤ JsFloat.mul (parseDecimalQ (formatUnits v d.toNat))
        (getTokenPriceInUsd env (resolveTokenAddress tx))) := by
  simp only [handleTokenTransfer, hh, hv, hd, hg, if_true, if_neg hne]
  by_cases hth : w.thresholdUsd ≤ JsFloat.mul (parseDecimalQ (formatUnits v d.toNat))
      (getTokenPriceInUsd env (resolveTokenAddress tx))
  · rw [if_pos hth]
    have hmem : Effect.marketLookup (resolveSymbol tx) ∈
        (openShortPosition (mkTransaction st.nextTxId h w.id (resolveTokenAddress tx)
          (resolveSymbol tx) (formatUnits v d.toNat)
          (JsFloat.mul (parseDecimalQ (formatUnits v d.toNat))
            (getTokenPriceInUsd env (resolveTokenAddress tx)))
          (resolveBlockNumber tx)) w
          (insertTx st (mkTransaction st.nextTxId h w.id (resolveTokenAddress tx)
            (resolveSymbol tx) (formatUnits v d.toNat)
            (JsFloat.mul (parseDecimalQ (formatUnits v d.toNat))
              (getTokenPriceInUsd env (resolveTokenAddress tx)))
            (resolveBlockNumber tx))) env).2 :=
      marketLookup_mem_openShortPosition _ w _ env rfl
    constructor
    · exact iff_of_true (by simp [hmem]) hth
    · exact fun p a _ => hth
  · rw [if_neg hth]
    constructor
    · exact iff_of_false (by simp) hth
    · intro p a hmem
      simp at hmem

set_option maxRecDepth 8000 in
/-- Witness for C8: the sample transfer's $10 valuation meets the $10
threshold, and the market lookup indeed happens. -/
theorem c8_witness :
    Effect.marketLookup (resolveSymbol sampleTransfer) ∈
        (handleTokenTransfer sampleTransfer sampleWallet sampleState sampleEnv).2 ↔
      sampleWallet.thresholdUsd ≤ JsFloat.mul
        (parseDecimalQ (formatUnits 5000000000000000000 ((18 : Int).toNat)))
        (getTokenPriceInUsd sampleEnv (resolveTokenAddress sampleTransfer)) :=
  (c8_threshold_gates_trade sampleTransfer sampleWallet sampleState sampleEnv
    "0xh1" 5000000000000000000 18 rfl (by decide) (by decide) (by decide) (by decide)).1

set_option maxRecDepth 8000 in
/-- Counterexample for C3 as stated: for the sample transfer ($10 valuation,
$10 threshold) the Gate.io pair list has no market for the symbol, yet TWO
notifications are sent — not exactly one — while the persisted record does
keep `shortOpened = false`. -/
theorem c3_counterexample :
    findTradingPair sampleEnv (resolveSymbol sampleTransfer) = none ∧
    ((processERC20Transfer sampleTransfer sampleState sampleEnv).2.countP
        isNotifyEffect) = 2 ∧
    ¬ ((processERC20Transfer sampleTransfer sampleState sampleEnv).2.countP
        isNotifyEffect) = 1 ∧
    (∀ r ∈ (processERC20Transfer sampleTransfer sampleState sampleEnv).1.transactions,
      r.shortOpened = false) := by
  decide

/-- C3 (amended): when the valuation meets the threshold but no market is
found for the symbol, the persisted record keeps `shortOpened = false` and the
trade is not attempted, but BOTH notifications are sent — the second, "short
opened" notification is emitted whenever the threshold is met, regardless of
whether a market was found or the trade succeeded. -/
theorem c3_no_market_keeps_flag_false (tx : TransferPayload) (w : Wallet)
    (st : DbState) (env : Env) (h : String) (v d : Int)
    (hh : jsStrOr tx.transactionHash tx.hash = some h) (hne : h ≠ "")
    (hv : resolveValue tx = some v) (hd : resolveDecimals tx = some d)
    (hg : formatGuard v d = true)
    (hge : w.thresholdUsd ≤ JsFloat.mul (parseDecimalQ (formatUnits v d.toNat))
      (getTokenPriceInUsd env (resolveTokenAddress tx)))
    (hpair : findTradingPair env (resolveSymbol tx) = none) :
    handleTokenTransfer tx w st env =
      (insertTx st (mkTransaction st.nextTxId h w.id (resolveTokenAddress tx)
          (resolveSymbol tx) (formatUnits v d.toNat)
          (JsFloat.mul (parseDecimalQ (formatUnits v d.toNat))
            (getTokenPriceInUsd env (resolveTokenAddress tx)))
          (resolveBlockNumber tx)),
        [Effect.notify w.chatId MsgKind.transferAlert,
         Effect.marketLookup (resolveSymbol tx),
         Effect.notify w.chatId MsgKind.shortAlert]) := by
  simp only [handleTokenTransfer, hh, hv, hd, hg, if_true, if_neg hne]
  rw [if_pos hge]
  unfold openShortPosition
  norm_num [mkTransaction, hpair]

set_option maxRecDepth 8000 in
/-- Witness for C3 (amended): the sample no-market run persists an untraded
record and sends the transfer alert plus the "short opened" message. -/
theorem c3_witness :
    handleTokenTransfer sampleTransfer sampleWallet sampleState sampleEnv =
      (insertTx sampleState (mkTransaction sampleState.nextTxId "0xh1" sampleWallet.id
          (resolveTokenAddress sampleTransfer) (resolveSymbol sampleTransfer)
          (formatUnits 5000000000000000000 ((18 : Int).toNat))
          (JsFloat.mul (parseDecimalQ (formatUnits 5000000000000000000 ((18 : Int).toNat)))
            (getTokenPriceInUsd sampleEnv (resolveTokenAddress sampleTransfer)))
          (resolveBlockNumber sampleTransfer)),
        [Effect.notify sampleWallet.chatId MsgKind.transferAlert,
         Effect.marketLookup (resolveSymbol sampleTransfer),
         Effect.notify sampleWallet.chatId MsgKind.shortAlert]) :=
  c3_no_market_keeps_flag_false sampleTransfer sampleWallet sampleState sampleEnv
    "0xh1" 5000000000000000000 18 rfl (by decide) (by decide) (by decide) (by decide)
    (by decide) (by decide)

/-- C9: every transaction record is created with the trade-triggered
(`shortOpened`) flag `false`, and across webhook processing a record whose
flag is set keeps the same id with the flag still set — the flag only ever
goes from `false` to `true`, never back. -/
theorem c9_flag_created_false_and_monotone :
    (∀ (id : Nat) (hsh : String) (wid : Nat) (ta ts am : String) (usd : JsFloat)
        (bn : Option Int),
      (mkTransaction id hsh wid ta ts am usd bn).shortOpened = false) ∧
    (∀ (body : WebhookBody) (st : DbState) (env : Env) (r : Transaction),
      r ∈ st.transactions → r.shortOpened = true →
      ∃ r' ∈ (handleWebhookEvent body st env).1.transactions,
        r'.id = r.id ∧ r'.shortOpened = true) :=
  ⟨fun _ _ _ _ _ _ _ _ => rfl,
   fun body st env r hr hf => flagPreserved_handleWebhookEvent body st env r hr hf⟩

set_option maxRecDepth 8000 in
/-- Witness for C9: a creation literal has the flag `false`, and a confirmed
delivery that adds a new record keeps the already-set flag of record 9. -/
theorem c9_witness :
    (mkTransaction 0 "0xh1" 0 "0xtok" "FOO" "5.0" 0 none).shortOpened = false ∧
    ∃ r' ∈ (handleWebhookEvent sampleBody flaggedState sampleEnv).1.transactions,
      r'.id = flaggedTx.id ∧ r'.shortOpened = true :=
  ⟨c9_flag_created_false_and_monotone.1 0 "0xh1" 0 "0xtok" "FOO" "5.0" 0 none,
   c9_flag_created_false_and_monotone.2 sampleBody flaggedState sampleEnv flaggedTx
     (by decide) rfl⟩

/-- C10: a present-but-falsy decimals field — in particular the number 0 —
falls through the `||` default chain exactly as if it were absent, the default
being `"18"`, i.e. 18 decimals; only a truthy value, including the string
`"0"`, is used as given. -/
theorem c10_falsy_decimals_default :
    (∀ tx : TransferPayload, tx.tokenDecimals = some (JsValue.vnum 0) →
        resolveDecimals tx = resolveDecimals { tx with tokenDecimals := none }) ∧
    (∀ tx : TransferPayload, tx.decimals = some (JsValue.vnum 0) →
        resolveDecimals tx = resolveDecimals { tx with decimals := none }) ∧
    (∀ tx : TransferPayload, tx.tokenDecimals = none → tx.decimals = none →
        resolveDecimals tx = some 18) ∧
    (∀ tx : TransferPayload, tx.tokenDecimals = some (JsValue.vstr "0") →
        resolveDecimals tx = some 0) := by
  refine ⟨?_, ?_, ?_, ?_⟩
  · intro tx h
    simp [resolveDecimals, resolveDecimalsRaw, jsOr, h, JsValue.truthy]
  · intro tx h
    simp [resolveDecimals, resolveDecimalsRaw, jsOr, h, JsValue.truthy]
  · intro tx h1 h2
    simp only [resolveDecimals, resolveDecimalsRaw, jsOr, h1, h2]
    decide
  · intro tx h
    have h0 : jsParseInt "0" = some 0 := by decide
    simp [resolveDecimals, resolveDecimalsRaw, jsOr, h, JsValue.truthy, h0]

/-- Witness for C10: decimals `= 0` (number) resolves like the absent default
of 18, while decimals `= "0"` (string) resolves to 0. -/
theorem c10_witness :
    resolveDecimals { sampleTransfer with tokenDecimals := some (JsValue.vnum 0) } =
        resolveDecimals sampleTransfer ∧
      resolveDecimals sampleTransfer = some 18 ∧
      resolveDecimals { sampleTransfer with tokenDecimals := some (JsValue.vstr "0") } =
        some 0 :=
  ⟨c10_falsy_decimals_default.1 _ rfl,
   c10_falsy_decimals_default.2.2.1 sampleTransfer rfl rfl,
   c10_falsy_decimals_default.2.2.2 _ rfl⟩
